import Mathlib

/-!
Verification of the HPC scheduler MCP server backend layer
(`src/mcp-servers/hpc-scheduler/src`): the job data model (`backends/base.py`),
the Slurm REST adapter (`backends/slurm_adapter.py`), the Flux exec adapter
(`backends/flux_adapter.py`), the mock adapter (`backends/mock_adapter.py`) and
the cluster registry (`cluster_registry.py`), shallowly embedded in Lean.

Modelling conventions:
* Python dicts are association lists `List (String × _)` preserving insertion
  order; assignment to an existing key updates in place, a fresh key appends.
* Python `None` values and absent optional arguments are `Option.none`.
* Raised exceptions are `Except.error`; functions with no reachable `raise`
  are total Lean functions.
* All recursion is structural (via fuel where needed) so that every
  definition reduces inside the kernel.
-/

namespace HpcSched

/-- A single-quote character (U+0027), used to build error-message strings. -/
def sq : String := ⟨[Char.ofNat 39]⟩

/-- Python values as they appear in the JSON-serializable dicts this layer
produces: `None`, bools, ints, strings, lists and string-keyed dicts. -/
inductive PyVal where
  | none
  | bool (b : Bool)
  | int (n : Int)
  | str (s : String)
  | list (xs : List PyVal)
  | dict (entries : List (String × PyVal))

/-- Dict lookup (`d.get(key)` / `d[key]`): first binding of the key wins.
Our dicts never contain duplicate keys, matching Python semantics. -/
def pyLookup {V : Type} : List (String × V) → String → Option V
  | [], _ => Option.none
  | (k, v) :: rest, key => if k = key then some v else pyLookup rest key

/-- Dict assignment (`d[key] = val`): update in place if the key exists,
append otherwise — Python dicts preserve insertion order. -/
def pySet {V : Type} : List (String × V) → String → V → List (String × V)
  | [], key, val => [(key, val)]
  | (k, v) :: rest, key, val =>
    if k = key then (key, val) :: rest else (k, v) :: pySet rest key val

/-- `d.update(other)`: assign every binding of `other` into `d` in order. -/
def pyDictUpdate {V : Type} (d : List (String × V)) (upd : List (String × V)) :
    List (String × V) :=
  upd.foldl (fun acc kv => pySet acc kv.1 kv.2) d

/-- Restriction of a dict to a set of keys (keeps the dict's own order). -/
def pyRestrict {V : Type} (d : List (String × V)) (ks : List String) :
    List (String × V) :=
  d.filter (fun kv => ks.contains kv.1)

/-- Truthiness of an optional string (`None` and `""` are falsy). -/
def strTruthy : Option String → Bool
  | Option.none => false
  | some s => !(s == "")

/-- Truthiness of an optional int (`None` and `0` are falsy). -/
def intTruthy : Option Int → Bool
  | Option.none => false
  | some n => !(n == 0)

/-- `x or default` for optional strings under Python truthiness. -/
def pyOrStr (o : Option String) (d : String) : String :=
  match o with
  | Option.none => d
  | some s => if s = "" then d else s

/-- `x or default` for optional ints under Python truthiness. -/
def pyOrInt (o : Option Int) (d : Int) : Int :=
  match o with
  | Option.none => d
  | some n => if n = 0 then d else n

/-- `backends/base.py` `JobSubmitParams`: script plus ten optional fields. -/
structure JobSubmitParams where
  script : String
  job_name : Option String
  nodes : Option Int
  tasks_per_node : Option Int
  cpus_per_task : Option Int
  memory : Option String
  time_limit : Option String
  partition : Option String
  output_path : Option String
  error_path : Option String
  working_dir : Option String

/-- `backends/base.py` `JobSubmitResult`. -/
structure JobSubmitResult where
  success : Bool
  job_id : Option String
  state : Option String
  error : Option String

/-- `backends/base.py` `JobDetails`. `time_limit` is dynamically typed in the
source (the Slurm adapter stores the raw minute count int, the others store a
`HH:MM:SS` string), hence `Option PyVal` here. -/
structure JobDetails where
  job_id : String
  name : String
  state : String
  submitted : String
  runtime : String
  exit_code : Option Int
  user : Option String
  partition : Option String
  started : Option String
  ended : Option String
  time_limit : Option PyVal
  resources : Option (List (String × PyVal))
  allocated_nodes : Option (List String)
  working_directory : Option String
  stdout_path : Option String
  stderr_path : Option String

/-- An `Optional[str]` field serialized into a dict value. -/
def optStrVal : Option String → PyVal
  | Option.none => PyVal.none
  | some s => PyVal.str s

/-- An `Optional[int]` field serialized into a dict value. -/
def optIntVal : Option Int → PyVal
  | Option.none => PyVal.none
  | some n => PyVal.int n

/-- An optional dynamically-typed field serialized into a dict value. -/
def optPyVal : Option PyVal → PyVal
  | Option.none => PyVal.none
  | some v => v

/-- An `Optional[Dict[str, Any]]` field serialized into a dict value. -/
def optDictVal : Option (List (String × PyVal)) → PyVal
  | Option.none => PyVal.none
  | some d => PyVal.dict d

/-- An `Optional[List[str]]` field serialized into a dict value. -/
def optStrListVal : Option (List String) → PyVal
  | Option.none => PyVal.none
  | some xs => PyVal.list (xs.map PyVal.str)

/-- `JobDetails.to_concise_dict` (`backends/base.py` lines 58-67). -/
def toConciseDict (j : JobDetails) : List (String × PyVal) :=
  [("job_id", PyVal.str j.job_id),
   ("name", PyVal.str j.name),
   ("state", PyVal.str j.state),
   ("submitted", PyVal.str j.submitted),
   ("runtime", PyVal.str j.runtime),
   ("exit_code", optIntVal j.exit_code)]

/-- `JobDetails.to_detailed_dict` (`backends/base.py` lines 69-86): start from
the concise dict and `update` it with the ten detailed fields. -/
def toDetailedDict (j : JobDetails) : List (String × PyVal) :=
  pyDictUpdate (toConciseDict j)
    [("user", optStrVal j.user),
     ("partition", optStrVal j.partition),
     ("started", optStrVal j.started),
     ("ended", optStrVal j.ended),
     ("time_limit", optPyVal j.time_limit),
     ("resources", optDictVal j.resources),
     ("allocated_nodes", optStrListVal j.allocated_nodes),
     ("working_directory", optStrVal j.working_directory),
     ("stdout_path", optStrVal j.stdout_path),
     ("stderr_path", optStrVal j.stderr_path)]

/-! ## Number and timestamp formatting -/

/-- Zero-pad a rendered number to width 2, as Python f-string `{:02d}`. -/
def padZero2 (s : String) : String :=
  if s.length < 2 then "0" ++ s else s

/-- `f"{n:02d}"` for a natural number. -/
def pad2 (n : Nat) : String := padZero2 (Nat.repr n)

/-- Zero-pad a rendered number on the left to width `w`. -/
def padZeroTo (w : Nat) (s : String) : String :=
  ⟨List.replicate (w - s.length) (Char.ofNat 48) ++ s.data⟩

/-- Decimal digits of a char list interpreted as a natural number, as
Python `int(...)` does on an all-digit string. -/
def digitsToNat (cs : List Char) : Nat :=
  cs.foldl (fun n c => n * 10 + (c.toNat - 48)) 0

/-- `HH:MM:SS` rendering of a second count, as the f-string
`f"{hours:02d}:{minutes:02d}:{seconds:02d}"` used by both adapters
(hours wider than two digits print in full, matching `{:02d}`). -/
def formatHMS (total_seconds : Nat) : String :=
  pad2 (total_seconds / 3600) ++ ":" ++ pad2 (total_seconds % 3600 / 60) ++ ":" ++
    pad2 (total_seconds % 60)

/-- Proleptic-Gregorian civil date from days since 1970-01-01 (the arithmetic
`datetime.fromtimestamp(_, tz=timezone.utc)` performs), via floor division —
`Int.fdiv` matches Python `//`. Returns `(year, month, day)`. -/
def civilFromDays (z0 : Int) : Int × Int × Int :=
  let z := z0 + 719468
  let era := Int.fdiv z 146097
  let doe := z - era * 146097
  let yoe := Int.fdiv (doe - Int.fdiv doe 1460 + Int.fdiv doe 36524 - Int.fdiv doe 146096) 365
  let y := yoe + era * 400
  let doy := doe - (365 * yoe + Int.fdiv yoe 4 - Int.fdiv yoe 100)
  let mp := Int.fdiv (5 * doy + 2) 153
  let d := doy - Int.fdiv (153 * mp + 2) 5 + 1
  let m := mp + (if mp < 10 then 3 else -9)
  (y + (if m ≤ 2 then 1 else 0), m, d)

/-- `datetime.fromtimestamp(ts, tz=timezone.utc).isoformat()` without the
trailing UTC offset, for whole-second timestamps. -/
def isoFromEpochCore (ts : Int) : String :=
  let days := Int.fdiv ts 86400
  let sod := (Int.fmod ts 86400).toNat
  let ymd := civilFromDays days
  padZeroTo 4 (Nat.repr ymd.1.toNat) ++ "-" ++ pad2 ymd.2.1.toNat ++ "-" ++
    pad2 ymd.2.2.toNat ++ "T" ++ pad2 (sod / 3600) ++ ":" ++
    pad2 (sod % 3600 / 60) ++ ":" ++ pad2 (sod % 60)

/-- `datetime.fromtimestamp(ts, tz=timezone.utc).isoformat()` for an integral
epoch-second timestamp: `YYYY-MM-DDTHH:MM:SS+00:00`. -/
def isoFromEpoch (ts : Int) : String := isoFromEpochCore ts ++ "+00:00"

/-- An exact non-negative decimal value `num / 10 ^ exp`, the result of
parsing a Python float literal. Kept unnormalized so that every computation
stays kernel-reducible. -/
structure DecVal where
  num : Int
  exp : Nat

/-- Exact model of Python `float(s)` restricted to the decimal forms the
backends emit: digits with at most one dot and at least one digit (no
exponent/inf/nan forms). Non-parsing strings give `none`, standing for the
`ValueError` that `float` raises. -/
def parsePyFloatCore (cs : List Char) : Option DecVal :=
  let ip := cs.takeWhile (fun c => c ≠ '.')
  let fp := (cs.dropWhile (fun c => c ≠ '.')).drop 1
  if cs.any Char.isDigit ∧ cs.count '.' ≤ 1 ∧ cs.all (fun c => c.isDigit ∨ c = '.') then
    some ⟨(digitsToNat ip : Int) * (10 : Int) ^ fp.length + (digitsToNat fp : Int), fp.length⟩
  else Option.none

/-- `float(s)` on a possibly signed decimal string. -/
def parsePyFloat (s : String) : Option DecVal :=
  match s.data with
  | '-' :: rest => (parsePyFloatCore rest).map (fun d => ⟨-d.num, d.exp⟩)
  | '+' :: rest => parsePyFloatCore rest
  | cs => parsePyFloatCore cs

/-- `datetime.fromtimestamp(v, tz=timezone.utc).isoformat()` for an exact
decimal timestamp. CPython turns the float into whole microseconds
(rounding); modelled as round-half-up over exact values, which agrees on
every integral input this development evaluates. -/
def isoFromEpochDec (v : DecVal) : String :=
  let den : Int := (10 : Int) ^ v.exp
  let total_micro : Int := Int.fdiv (v.num * 2000000 + den) (2 * den)
  let secs := Int.fdiv total_micro 1000000
  let micro := (Int.fmod total_micro 1000000).toNat
  if micro = 0 then isoFromEpochCore secs ++ "+00:00"
  else isoFromEpochCore secs ++ "." ++ padZeroTo 6 (Nat.repr micro) ++ "+00:00"

/-! ## Slurm adapter (`backends/slurm_adapter.py`) -/

/-- Slurm REST tri-state timestamp wrapper `{set: bool, number: int}`; a dict
missing the `set` or `number` key behaves as `set := false` / `number := 0`
(Python `.get` defaults). An absent or empty wrapper dict is `Option.none`
at the use sites. -/
structure SlurmTs where
  set : Bool
  number : Int

/-- `SlurmAdapter._format_timestamp` (lines 103-110): empty string when the
wrapper is falsy, its `set` flag is unset, or its value is zero; otherwise the
ISO-8601 UTC rendering. -/
def slurmFormatTimestamp : Option SlurmTs → String
  | Option.none => ""
  | some t => if !t.set then "" else if t.number = 0 then "" else isoFromEpoch t.number

/-- `SlurmAdapter._normalize_state` (lines 87-101): fixed lookup table with
unmapped states passed through unchanged. -/
def slurmNormalizeState (slurm_state : String) : String :=
  (pyLookup
    [("PENDING", "PENDING"), ("RUNNING", "RUNNING"), ("COMPLETED", "COMPLETED"),
     ("FAILED", "FAILED"), ("CANCELLED", "CANCELLED"), ("TIMEOUT", "TIMEOUT"),
     ("NODE_FAIL", "FAILED"), ("PREEMPTED", "CANCELLED"),
     ("COMPLETING", "RUNNING"), ("CONFIGURING", "PENDING")] slurm_state).getD
    slurm_state

/-- `SlurmAdapter._calculate_runtime` (lines 112-123). `end_time` is the
optional second argument (`None` when omitted); `now` stands for
`int(time.time())`. -/
def slurmCalculateRuntime (start_time : Int) (end_time : Option Int) (now : Int) : String :=
  if start_time = 0 then "00:00:00"
  else
    let e := match end_time with
      | some v => if v ≠ 0 ∧ v > 0 then v else now
      | Option.none => now
    formatHMS (max 0 (e - start_time)).toNat

/-- `wrapper.get("number", 0) if wrapper else 0`: the numeric value of a
tri-state timestamp wrapper, zero when the wrapper is absent or empty. -/
def slurmTsNum : Option SlurmTs → Int
  | some t => t.number
  | Option.none => 0

/-- Raw fields of one job object in a Slurm REST `GET job/{id}` response, as
`SlurmAdapter.get_job` (lines 175-232) reads them. `Option.none` models an
absent key. `job_state` is the list-or-scalar field; `exit_code_return` is
`job_data["exit_code"]["return_code"]` (`none` when the `exit_code` value is
absent, not a dict, or lacks `return_code`); `time_limit_number` and
`node_count_number` are the nested `number` keys, outer option for the outer
dict. -/
structure SlurmJobData where
  job_id : Option Int
  name : Option String
  job_state : Option (Sum (List String) String)
  submit_time : Option SlurmTs
  start_time : Option SlurmTs
  end_time : Option SlurmTs
  exit_code_return : Option (Sum Int String)
  time_limit_number : Option (Option Int)
  node_count_number : Option (Option Int)
  tasks : Option Int
  cpus_per_task : Option Int
  memory_per_node : Option PyVal
  nodes : Option String
  user_name : Option String
  partition : Option String
  current_working_directory : Option String
  standard_output : Option String
  standard_error : Option String

/-- Split a string at every occurrence of a separator char, keeping empty
pieces, as Python `str.split(sep)`. -/
def splitCharGo (sep : Char) : List Char → List Char → List (List Char)
  | [], acc => [acc.reverse]
  | x :: rest, acc =>
    if x = sep then acc.reverse :: splitCharGo sep rest []
    else splitCharGo sep rest (x :: acc)

/-- Python `s.split(sep)` for a one-char separator. -/
def pySplitChar (s : String) (sep : Char) : List String :=
  (splitCharGo sep s.data []).map (fun l => ⟨l⟩)

/-- The exit-code inference of `SlurmAdapter.get_job` (lines 193-199): taken
from `exit_code.return_code`, skipped when it is `None` or the string
`"PENDING"`; `int(return_code)` when `str(return_code).isdigit()`, else
`None` (so negative ints and non-digit strings give `None`). -/
def slurmExitCode : Option (Sum Int String) → Option Int
  | Option.none => Option.none
  | some (Sum.inl n) => if 0 ≤ n then some n else Option.none
  | some (Sum.inr s) =>
    if s = "PENDING" then Option.none
    else if s ≠ "" ∧ s.data.all Char.isDigit then some (digitsToNat s.data : Int)
    else Option.none

/-- `SlurmAdapter.get_job` normalization (lines 183-232), from one raw job
object to `JobDetails`. `now` models `int(time.time())` used by
`_calculate_runtime`; `queried_id` is the `job_id` argument (the default for
a missing `job_id` key). Errors model raised exceptions (an empty
`job_state` list raises `IndexError` via `[0]`). -/
def slurmBuildJobDetails (now : Int) (queried_id : String) (job_data : SlurmJobData) :
    Except String JobDetails := do
  let start_num : Int := slurmTsNum job_data.start_time
  let end_num : Int := slurmTsNum job_data.end_time
  let raw_state : String ← match job_data.job_state with
    | some (Sum.inl []) => Except.error "IndexError: list index out of range"
    | some (Sum.inl (s :: _)) => Except.ok s
    | some (Sum.inr s) => Except.ok s
    | Option.none => Except.ok "UNKNOWN"
  Except.ok
    { job_id := match job_data.job_id with
        | some n => toString n
        | Option.none => queried_id
      name := job_data.name.getD ""
      state := slurmNormalizeState raw_state
      submitted := slurmFormatTimestamp job_data.submit_time
      runtime := slurmCalculateRuntime start_num (some end_num) now
      exit_code := slurmExitCode job_data.exit_code_return
      user := some (job_data.user_name.getD "")
      partition := some (job_data.partition.getD "")
      started := some (slurmFormatTimestamp job_data.start_time)
      ended := if end_num > 0 then some (slurmFormatTimestamp job_data.end_time)
        else Option.none
      time_limit := some (match job_data.time_limit_number with
        | some (some n) => PyVal.int n
        | _ => PyVal.str "00:00:00")
      resources := some
        [("nodes", PyVal.int (match job_data.node_count_number with
            | some (some n) => n
            | _ => 0)),
         ("tasks", PyVal.int (job_data.tasks.getD 0)),
         ("cpus_per_task", PyVal.int (job_data.cpus_per_task.getD 0)),
         ("memory", job_data.memory_per_node.getD (PyVal.str ""))]
      allocated_nodes := some (if strTruthy job_data.nodes
        then pySplitChar (job_data.nodes.getD "") ','
        else [])
      working_directory := some (job_data.current_working_directory.getD "")
      stdout_path := some (job_data.standard_output.getD "")
      stderr_path := some (job_data.standard_error.getD "") }

/-- The job-submission payload `job_spec` built by `SlurmAdapter.submit_job`
(lines 128-152): script and working directory always present (the latter
defaulted to `/tmp`), each optional field added only when truthy. -/
def slurmBuildJobSpec (params : JobSubmitParams) : List (String × PyVal) :=
  let job_spec := [("script", PyVal.str params.script),
                   ("current_working_directory", PyVal.str (pyOrStr params.working_dir "/tmp"))]
  let job_spec := if strTruthy params.job_name
    then pySet job_spec "name" (PyVal.str (params.job_name.getD "")) else job_spec
  let job_spec := if intTruthy params.nodes
    then pySet job_spec "nodes" (PyVal.int (params.nodes.getD 0)) else job_spec
  let job_spec := if intTruthy params.tasks_per_node
    then pySet job_spec "tasks_per_node" (PyVal.int (params.tasks_per_node.getD 0)) else job_spec
  let job_spec := if intTruthy params.cpus_per_task
    then pySet job_spec "cpus_per_task" (PyVal.int (params.cpus_per_task.getD 0)) else job_spec
  let job_spec := if strTruthy params.memory
    then pySet job_spec "memory_per_node" (PyVal.str (params.memory.getD "")) else job_spec
  let job_spec := if strTruthy params.time_limit
    then pySet job_spec "time_limit" (PyVal.str (params.time_limit.getD "")) else job_spec
  let job_spec := if strTruthy params.partition
    then pySet job_spec "partition" (PyVal.str (params.partition.getD "")) else job_spec
  let job_spec := if strTruthy params.output_path
    then pySet job_spec "standard_output" (PyVal.str (params.output_path.getD "")) else job_spec
  let job_spec := if strTruthy params.error_path
    then pySet job_spec "standard_error" (PyVal.str (params.error_path.getD "")) else job_spec
  job_spec

/-- A raised Python exception as the Slurm adapter renders it: `str(e)`. -/
structure PyExc where
  msg : String
  typeName : String
  traceback : String

/-- Response body of `POST /slurm/v0.0.40/job/submit` as
`SlurmAdapter.submit_job` reads it: the `errors` array (already rendered to
message strings by `e.get("error", str(e))`) and the optional `job_id` int. -/
structure SlurmSubmitResponse where
  errors : List String
  job_id : Option Int

/-- `"; ".join(...)` / `", ".join(...)`. -/
def joinSep (sep : String) : List String → String
  | [] => ""
  | [x] => x
  | x :: y :: xs => x ++ sep ++ joinSep sep (y :: xs)

/-- `SlurmAdapter.submit_job` (lines 125-173) after the payload is built: the
REST round-trip either raises (`Except.error`) or yields a response body; the
result populates `job_id`/`state` on success and `error` on failure. -/
def slurmSubmitJob (outcome : Except PyExc SlurmSubmitResponse) : JobSubmitResult :=
  match outcome with
  | Except.error e => ⟨false, Option.none, Option.none, some e.msg⟩
  | Except.ok resp =>
    if resp.errors ≠ [] then
      ⟨false, Option.none, Option.none, some (joinSep "; " resp.errors)⟩
    else
      let job_id := match resp.job_id with
        | some n => toString n
        | Option.none => ""
      if job_id = "" then ⟨false, Option.none, Option.none, some "No job_id in response"⟩
      else ⟨true, some job_id, some "PENDING", Option.none⟩

/-! ## Flux adapter (`backends/flux_adapter.py`) -/

/-- `FluxAdapter._parse_flux_duration` (lines 183-213): `""`/`"-"` and
non-matching strings give `"00:00:00"`; otherwise the regex
`([\d.]+)([smhd]?)` captures the leading digit-and-dot run and an optional
unit, `float(group(1))` converts it (raising `ValueError` — `Except.error` —
on runs such as `"."` with no digit or `"1.2.3"` with two dots), and the
truncated second total is rendered `HH:MM:SS`. -/
def parseFluxDuration (duration_str : String) : Except String String :=
  if duration_str = "" ∨ duration_str = "-" then Except.ok "00:00:00"
  else
    let run := duration_str.data.takeWhile (fun c => c.isDigit || c == '.')
    if run = [] then Except.ok "00:00:00"
    else
      match parsePyFloatCore run with
      | Option.none =>
        Except.error ("ValueError: could not convert string to float: " ++ sq ++
          (⟨run⟩ : String) ++ sq)
      | some value =>
        let unit : Char := match duration_str.data.drop run.length with
          | c :: _ => if c = 's' ∨ c = 'm' ∨ c = 'h' ∨ c = 'd' then c else 's'
          | [] => 's'
        let mult : Int :=
          if unit = 's' then 1
          else if unit = 'm' then 60
          else if unit = 'h' then 3600
          else if unit = 'd' then 86400
          else 1
        Except.ok (formatHMS (Int.fdiv (value.num * mult) ((10 : Int) ^ value.exp)).toNat)

/-- `FluxAdapter._normalize_state` (lines 171-181). -/
def fluxNormalizeState (flux_state : String) : String :=
  (pyLookup
    [("DEPEND", "PENDING"), ("SCHED", "PENDING"), ("RUN", "RUNNING"),
     ("INACTIVE", "COMPLETED"), ("CANCELED", "CANCELLED"),
     ("TIMEOUT", "TIMEOUT")] flux_state).getD flux_state

/-- `float(field)` then ISO-8601 UTC rendering, the conversion
`FluxAdapter.get_job` applies to a non-`"-"` timestamp field; a non-numeric
field raises `ValueError`. -/
def fluxTsString (field : String) : Except String String :=
  match parsePyFloat field with
  | Option.none =>
    Except.error ("ValueError: could not convert string to float: " ++ sq ++ field ++ sq)
  | some v => Except.ok (isoFromEpochDec v)

/-- The `submitted` field of `FluxAdapter.get_job` (lines 331-335): converted
unless the raw field is the placeholder `"-"`, which gives `""`. -/
def fluxSubmittedField (t_submit : String) : Except String String :=
  if t_submit ≠ "-" then fluxTsString t_submit else Except.ok ""

/-- The `started` field of `FluxAdapter.get_job` (lines 336-340): converted
unless the raw field is `"-"`, which gives `None`. -/
def fluxStartedField (t_run : String) : Except String (Option String) :=
  if t_run ≠ "-" then (fluxTsString t_run).map some else Except.ok Option.none

/-- The `ended` field of `FluxAdapter.get_job` (lines 341-345): converted
unless the raw field is `"-"`, which gives `None`. -/
def fluxEndedField (t_inactive : String) : Except String (Option String) :=
  if t_inactive ≠ "-" then (fluxTsString t_inactive).map some else Except.ok Option.none

/-- The exit-code inference of `FluxAdapter.get_job` (lines 321-328), from the
backend-reported `result` tag. -/
def fluxExitCode (result : String) : Option Int :=
  if result ≠ "" ∧ result ≠ "-" then
    if result = "COMPLETED" then some 0
    else if result = "FAILED" then some 1
    else Option.none
  else Option.none

/-- The `flux submit` argv built by `FluxAdapter.submit_job` (lines 234-256):
each truthy optional field contributes its flag, the working directory is
always passed via `--cwd` (defaulted to `/tmp`), and the temp script path is
the final argument. `memory` and `partition` are never forwarded. -/
def fluxBuildSubmitCmd (params : JobSubmitParams) (temp_script : String) : List String :=
  let cmd := ["flux", "submit"]
  let cmd := cmd ++ (if strTruthy params.job_name
    then ["--setattr", "user.name=" ++ params.job_name.getD ""] else [])
  let cmd := cmd ++ (if intTruthy params.nodes
    then ["-N", toString (params.nodes.getD 0)] else [])
  let cmd := cmd ++ (if intTruthy params.tasks_per_node
    then ["-n", toString (params.tasks_per_node.getD 0)] else [])
  let cmd := cmd ++ (if intTruthy params.cpus_per_task
    then ["-c", toString (params.cpus_per_task.getD 0)] else [])
  let cmd := cmd ++ (if strTruthy params.time_limit
    then ["-t", params.time_limit.getD ""] else [])
  let cmd := cmd ++ (if strTruthy params.output_path
    then ["-o", params.output_path.getD ""] else [])
  let cmd := cmd ++ (if strTruthy params.error_path
    then ["-e", params.error_path.getD ""] else [])
  let cmd := cmd ++ ["--cwd", pyOrStr params.working_dir "/tmp"]
  cmd ++ [temp_script]

/-- Python `repr` of a string as used in the flux no-job-id message
(quoting only; escaping elided, irrelevant to the claims evaluated). -/
def pyReprStr (s : String) : String := sq ++ s ++ sq

/-- Whitespace strip, as Python `str.strip()` (ASCII whitespace forms, the
only ones the flux CLI emits). -/
def pyStrip (s : String) : String :=
  ⟨(s.data.dropWhile Char.isWhitespace).reverse.dropWhile Char.isWhitespace |>.reverse⟩

/-- The exception text `FluxAdapter.submit_job` builds in its outer handler:
`f"Exception: {str(e)}, Type: {type(e).__name__}, Traceback: {...}"`. -/
def fluxExcText (e : PyExc) : String :=
  "Exception: " ++ e.msg ++ ", Type: " ++ e.typeName ++ ", Traceback: " ++ e.traceback

/-- `FluxAdapter.submit_job` (lines 215-278) with the pod-exec round-trips as
environment outcomes: writing the temp script may raise; the `flux submit`
exec may raise or yield raw stdout. The temp-file cleanup in the `finally`
block swallows its own errors and does not affect the result. On success the
job id is the stripped stdout, rejected when empty. -/
def fluxSubmitJob (write_outcome : Except PyExc Unit)
    (submit_outcome : Except PyExc String) : JobSubmitResult :=
  match write_outcome with
  | Except.error e => ⟨false, Option.none, Option.none, some (fluxExcText e)⟩
  | Except.ok _ =>
    match submit_outcome with
    | Except.error e => ⟨false, Option.none, Option.none, some (fluxExcText e)⟩
    | Except.ok output =>
      let job_id := pyStrip output
      if job_id = "" then
        ⟨false, Option.none, Option.none,
          some ("No job ID returned. Output type: <class " ++ sq ++ "str" ++ sq ++
            ">, Output repr: " ++ pyReprStr output ++ ", Output str: " ++ output ++
            ", Is string: True")⟩
      else ⟨true, some job_id, some "PENDING", Option.none⟩

/-! ## Mock adapter (`backends/mock_adapter.py`) -/

/-- Length of Python `range(start, stop, step)` for non-zero step. -/
def pyRangeLen (start stop step : Int) : Nat :=
  if 0 < step then
    (if start < stop then ((stop - start + step - 1).fdiv step).toNat else 0)
  else if step < 0 then
    (if stop < start then ((start - stop - step - 1).fdiv (-step)).toNat else 0)
  else 0

/-- Elements of `range`, by length. -/
def pyRangeGo (start step : Int) : Nat → List Int
  | 0 => []
  | n + 1 => start :: pyRangeGo (start + step) step n

/-- Python `range(start, stop, step)` as a list (callers rule out step 0,
which `range` rejects with `ValueError`). -/
def pyRangeList (start stop step : Int) : List Int :=
  pyRangeGo start step (pyRangeLen start stop step)

/-- Prefix test on char lists. -/
def isPrefixList : List Char → List Char → Bool
  | [], _ => true
  | _ :: _, [] => false
  | p :: ps, c :: cs => p = c && isPrefixList ps cs

/-- Fueled worker for `pyReplace`; fuel is the input length, enough because
each step consumes at least one character of a non-empty pattern. -/
def replaceGo (pat rep : List Char) : Nat → List Char → List Char
  | _, [] => []
  | 0, l => l
  | fuel + 1, c :: rest =>
    if isPrefixList pat (c :: rest) then
      rep ++ replaceGo pat rep fuel ((c :: rest).drop pat.length)
    else c :: replaceGo pat rep fuel rest

/-- Python `s.replace(pat, rep)` for a non-empty pattern (the only use here
is `.replace("+00:00", "Z")`). -/
def pyReplace (s pat rep : String) : String :=
  ⟨replaceGo pat.data rep.data s.data.length s.data⟩

/-- In-memory state of a `MockAdapter`: the backend style hint
(`config.get("mock_type", "slurm")`), the configured user
(`config.get("user", ...)` consulted at job creation), the job store and the
id counter (initialized to 1000). -/
structure MockState where
  mock_type : String
  cfg_user : Option String
  jobs : List (String × JobDetails)
  job_counter : Nat

/-- `MockAdapter._generate_job_id` (lines 28-39): render and bump the
counter; flux-style adapters add the `ƒ` glyph. -/
def mockGenerateJobId (st : MockState) : String × MockState :=
  let job_id := Nat.repr st.job_counter
  let st1 : MockState := { st with job_counter := st.job_counter + 1 }
  if st.mock_type = "flux" then ("ƒ" ++ job_id, st1) else (job_id, st1)

/-- `MockAdapter._create_mock_job` (lines 41-81). `now` is the rendered
`datetime.now(timezone.utc).isoformat()` environment input; the source
replaces its `+00:00` suffix with `Z`. -/
def mockCreateJob (now : String) (st : MockState) (job_id : String)
    (params : JobSubmitParams) (state : String) : JobDetails :=
  let stamp := pyReplace now "+00:00" "Z"
  let started_runtime : Option String × String :=
    if state = "RUNNING" ∨ state = "COMPLETED" then (some stamp, "00:15:23")
    else (Option.none, "00:00:00")
  { job_id := job_id
    name := pyOrStr params.job_name "mock-job"
    state := state
    submitted := stamp
    runtime := started_runtime.2
    exit_code := if state = "COMPLETED" then some 0 else Option.none
    user := some (st.cfg_user.getD "mock-user")
    partition := some (pyOrStr params.partition "default")
    started := started_runtime.1
    ended := if state = "COMPLETED" then some stamp else Option.none
    time_limit := some (PyVal.str (pyOrStr params.time_limit "01:00:00"))
    resources := some
      [("nodes", PyVal.int (pyOrInt params.nodes 1)),
       ("tasks", PyVal.int (pyOrInt params.tasks_per_node 1)),
       ("cpus_per_task", PyVal.int (pyOrInt params.cpus_per_task 1)),
       ("memory", PyVal.str (pyOrStr params.memory "4GB"))]
    allocated_nodes := some ((pyRangeList 1 (pyOrInt params.nodes 1 + 1) 1).map
      (fun i => "node-" ++ padZero2 (toString i)))
    working_directory := some (pyOrStr params.working_dir "/tmp")
    stdout_path := some (pyOrStr params.output_path ("/tmp/job-" ++ job_id ++ ".out"))
    stderr_path := some (pyOrStr params.error_path ("/tmp/job-" ++ job_id ++ ".err")) }

/-- `MockAdapter.submit_job` (lines 83-100): generate an id, store a PENDING
job, return success (nothing in the `try` block can raise). -/
def mockSubmitJob (now : String) (st : MockState) (params : JobSubmitParams) :
    JobSubmitResult × MockState :=
  let idSt := mockGenerateJobId st
  let job := mockCreateJob now idSt.2 idSt.1 params "PENDING"
  (⟨true, some idSt.1, some "PENDING", Option.none⟩,
    { idSt.2 with jobs := pySet idSt.2.jobs idSt.1 job })

/-- `MockAdapter.get_job` (lines 102-114): auto-create and store a RUNNING
job for an unknown id, then return the stored job — never fails. -/
def mockGetJob (now : String) (st : MockState) (job_id : String) :
    JobDetails × MockState :=
  match pyLookup st.jobs job_id with
  | some j => (j, st)
  | Option.none =>
    let mock_params : JobSubmitParams :=
      ⟨"#!/bin/bash\necho " ++ sq ++ "mock job" ++ sq, some "mock-job",
        Option.none, Option.none, Option.none, Option.none, Option.none,
        Option.none, Option.none, Option.none, Option.none⟩
    let job := mockCreateJob now st job_id mock_params "RUNNING"
    (job, { st with jobs := pySet st.jobs job_id job })

/-- Python `int(s)` on an optionally signed digit string (whitespace
stripped; underscore-grouped literals are not modelled — the adapter never
receives them). `none` stands for the raised `ValueError`. -/
def pyIntCore (cs : List Char) : Option Int :=
  if cs ≠ [] ∧ cs.all Char.isDigit then some (digitsToNat cs : Int) else Option.none

/-- `int(s)` with the `ValueError` it raises on a non-numeric string. -/
def pyIntParse (s : String) : Except String Int :=
  let r := match (pyStrip s).data with
    | '-' :: rest => (pyIntCore rest).map (fun n => -n)
    | '+' :: rest => pyIntCore rest
    | cs => pyIntCore cs
  match r with
  | some n => Except.ok n
  | Option.none =>
    Except.error ("ValueError: invalid literal for int() with base 10: " ++ pyReprStr s)

/-- One entry of the per-item error list of `submit_batch`:
`{"index": ..., "command": ..., "error": ...}`. -/
structure BatchErr where
  index : Nat
  command : String
  error : String

/-- Result dict of `MockAdapter.submit_batch`: either the full counts dict,
or the early-return dict `{"success": False, "error": ...}` when neither an
array spec nor commands were given (note: no counts in that shape). -/
inductive BatchResult where
  | counts (success : Bool) (job_ids : List String) (batch_type : String)
      (submitted : Nat) (failed : Nat) (errors : List BatchErr)
  | missingInput (success : Bool) (error : String)

/-- Truthiness of an optional list (`None` and `[]` are falsy). -/
def listTruthy {α : Type} : Option (List α) → Bool
  | Option.none => false
  | some l => !l.isEmpty

/-- The array-spec parser inside `MockAdapter.submit_batch` (lines 374-384),
reached only when the spec contains a hyphen: `start-end` or
`start-end:step`, each part through `int(...)`; a `1:2:3`-style tail fails
tuple unpacking; `range` rejects a zero step. -/
def mockParseArrayItems (array_spec : String) : Except String (List Int) := do
  let parts := pySplitChar array_spec '-'
  let start ← pyIntParse (parts.headD "")
  let end_step := (parts.drop 1).headD ""
  let es ← if end_step.data.contains ':' then do
      let pieces := pySplitChar end_step ':'
      if pieces.length = 2 then do
        let e ← pyIntParse (pieces.headD "")
        let s ← pyIntParse ((pieces.drop 1).headD "")
        Except.ok (e, s)
      else Except.error "ValueError: too many values to unpack (expected 2)"
    else do
      let e ← pyIntParse end_step
      Except.ok (e, 1)
  if es.2 = 0 then Except.error "ValueError: range() arg 3 must not be zero"
  else Except.ok (pyRangeList start (es.1 + 1) es.2)

/-- The submission loop of the array branch (lines 386-393): one generated id
per range element, breaking once `count >= max_concurrent` for a truthy
`max_concurrent`. Returns the ids, the submitted count and the new state. -/
def mockBatchLoop (max_concurrent : Option Int) :
    List Int → Nat → MockState → List String × Nat × MockState
  | [], _, st => ([], 0, st)
  | _ :: rest, count, st =>
    if intTruthy max_concurrent ∧ (count : Int) ≥ max_concurrent.getD 0 then ([], 0, st)
    else
      let idSt := mockGenerateJobId st
      let r := mockBatchLoop max_concurrent rest (count + 1) idSt.2
      (idSt.1 :: r.1, r.2.1 + 1, r.2.2)

/-- The bulk branch loop (lines 398-407): one id per command; nothing inside
the `try` can raise, so every item is submitted. -/
def mockBulkLoop : List String → MockState → List String × MockState
  | [], st => ([], st)
  | _ :: rest, st =>
    let idSt := mockGenerateJobId st
    let r := mockBulkLoop rest idSt.2
    (idSt.1 :: r.1, r.2)

/-- `MockAdapter.submit_batch` (lines 352-422). The parameters `script`,
`job_name_prefix`, `nodes`, `tasks_per_node` and `time_limit` never influence
the result in the source and are omitted here. An array spec without a
hyphen skips the whole parse-and-submit block, leaving all counts zero. -/
def mockSubmitBatch (array_spec : Option String) (commands : Option (List String))
    (max_concurrent : Option Int) (st : MockState) : BatchResult × MockState :=
  if strTruthy array_spec then
    let spec := array_spec.getD ""
    if spec.data.contains '-' then
      match mockParseArrayItems spec with
      | Except.error e =>
        (BatchResult.counts false [] "array" 0 1 [⟨0, spec, e⟩], st)
      | Except.ok items =>
        let r := mockBatchLoop max_concurrent items 0 st
        (BatchResult.counts (r.2.1 > 0) r.1 "array" r.2.1 0 [], r.2.2)
    else (BatchResult.counts false [] "array" 0 0 [], st)
  else if listTruthy commands then
    let r := mockBulkLoop (commands.getD []) st
    (BatchResult.counts (r.1.length > 0) r.1 "bulk" r.1.length 0 [], r.2)
  else
    (BatchResult.missingInput false "Either array_spec or commands must be provided", st)

/-! ## Cluster registry (`cluster_registry.py`) -/

/-- The configuration dict of one cluster, restricted to the keys the
adapters and registry read: `type`, `endpoint` (Slurm), `namespace` and
`minicluster` (Flux), and the `mock_type` hint the registry writes. -/
structure ClusterConfig where
  ctype : Option String
  endpoint : Option String
  ns : Option String
  minicluster : Option String
  mock_type : Option String

/-- Which adapter class was constructed. -/
inductive AdapterKind where
  | slurm
  | flux
  | mock

/-- A constructed adapter object; `aid` is a fresh allocation number so that
Python object identity is expressible (two constructions never share it). -/
structure AdapterInst where
  aid : Nat
  kind : AdapterKind
  cfg : ClusterConfig

/-- `ClusterRegistry` state: the name→config map loaded at `__init__` and the
name→adapter cache, plus the allocation counter for fresh identities. -/
structure RegistryState where
  configs : List (String × ClusterConfig)
  adapters : List (String × AdapterInst)
  next_id : Nat

/-- Python `str(...)` of an optional string (`None` renders as `"None"` in
an f-string). -/
def pyShowOptStr : Option String → String
  | Option.none => "None"
  | some s => s

/-- `ClusterRegistry.get_adapter` (lines 81-130). `use_mock` is the
`USE_MOCK_BACKENDS` environment flag. Cached adapters are returned as-is; an
unknown name raises the not-found error listing the configured names;
otherwise the adapter is constructed per configured type (constructor
`KeyError`s for missing required keys are modelled; the Flux kube-config load
is modelled as succeeding), cached and returned. Under `use_mock` the config
gains `mock_type` (visible in `self.configs` too — the source mutates the
shared dict). -/
def getAdapter (use_mock : Bool) (cluster_name : String) (st : RegistryState) :
    Except String AdapterInst × RegistryState :=
  match pyLookup st.adapters cluster_name with
  | some a => (Except.ok a, st)
  | Option.none =>
    match pyLookup st.configs cluster_name with
    | Option.none =>
      (Except.error ("Cluster " ++ sq ++ cluster_name ++ sq ++
        " not found. Available clusters: " ++ joinSep ", " (st.configs.map Prod.fst)), st)
    | some config =>
      let cluster_type := config.ctype
      if use_mock then
        let config1 := { config with mock_type := cluster_type }
        let adapter : AdapterInst := ⟨st.next_id, AdapterKind.mock, config1⟩
        (Except.ok adapter,
          ⟨pySet st.configs cluster_name config1,
            pySet st.adapters cluster_name adapter, st.next_id + 1⟩)
      else if cluster_type = some "slurm" then
        match config.endpoint with
        | Option.none => (Except.error ("KeyError: " ++ sq ++ "endpoint" ++ sq), st)
        | some _ =>
          let adapter : AdapterInst := ⟨st.next_id, AdapterKind.slurm, config⟩
          (Except.ok adapter,
            ⟨st.configs, pySet st.adapters cluster_name adapter, st.next_id + 1⟩)
      else if cluster_type = some "flux" then
        if config.ns.isNone then
          (Except.error ("KeyError: " ++ sq ++ "namespace" ++ sq), st)
        else if config.minicluster.isNone then
          (Except.error ("KeyError: " ++ sq ++ "minicluster" ++ sq), st)
        else
          let adapter : AdapterInst := ⟨st.next_id, AdapterKind.flux, config⟩
          (Except.ok adapter,
            ⟨st.configs, pySet st.adapters cluster_name adapter, st.next_id + 1⟩)
      else if cluster_type = some "mock" then
        let adapter : AdapterInst := ⟨st.next_id, AdapterKind.mock, config⟩
        (Except.ok adapter,
          ⟨st.configs, pySet st.adapters cluster_name adapter, st.next_id + 1⟩)
      else
        (Except.error ("Unknown cluster type " ++ sq ++ pyShowOptStr cluster_type ++
          sq ++ " for cluster " ++ sq ++ cluster_name ++ sq), st)

/-! ## Unimplemented operations (claim C9) -/

/-- Raised Python errors, distinguishing `NotImplementedError`. -/
inductive PyError where
  | notImplementedError (msg : String)
  | exc (msg : String)

/-- `SlurmAdapter.get_queue_status` (lines 336-352): raises
`NotImplementedError` before any REST request (the second component is the
list of REST calls issued — none). -/
def slurmGetQueueStatus (response_format : String) : Except PyError PyVal × List String :=
  (Except.error (PyError.notImplementedError
    ("get_queue_status is not yet implemented for Slurm adapter. " ++
      "Use MockAdapter with USE_MOCK_BACKENDS=true for testing.")), [])

/-- `SlurmAdapter.get_resources` (lines 354-370): raises immediately. -/
def slurmGetResources (response_format : String) : Except PyError PyVal × List String :=
  (Except.error (PyError.notImplementedError
    ("get_resources is not yet implemented for Slurm adapter. " ++
      "Use MockAdapter with USE_MOCK_BACKENDS=true for testing.")), [])

/-- `SlurmAdapter.get_accounting` (lines 372-401): raises immediately. -/
def slurmGetAccounting (job_id user start_time end_time : Option String)
    (limit : Int) (response_format : String) : Except PyError PyVal × List String :=
  (Except.error (PyError.notImplementedError
    ("get_accounting is not yet implemented for Slurm adapter. " ++
      "Use MockAdapter with USE_MOCK_BACKENDS=true for testing.")), [])

/-- `SlurmAdapter.submit_batch` (lines 403-436): raises immediately. -/
def slurmSubmitBatch (script : String) (array_spec : Option String)
    (commands : Option (List String)) (job_name_pfx : Option String)
    (nodes tasks_per_node : Option Int) (time_limit : Option String)
    (max_concurrent : Option Int) : Except PyError PyVal × List String :=
  (Except.error (PyError.notImplementedError
    ("submit_batch is not yet implemented for Slurm adapter. " ++
      "Use MockAdapter with USE_MOCK_BACKENDS=true for testing.")), [])

/-- `FluxAdapter.get_queue_status` (lines 512-528): raises before any pod
exec (second component: the exec calls issued — none). -/
def fluxGetQueueStatus (response_format : String) : Except PyError PyVal × List String :=
  (Except.error (PyError.notImplementedError
    ("get_queue_status is not yet implemented for Flux adapter. " ++
      "Use MockAdapter with USE_MOCK_BACKENDS=true for testing.")), [])

/-- `FluxAdapter.get_resources` (lines 530-546): raises immediately. -/
def fluxGetResources (response_format : String) : Except PyError PyVal × List String :=
  (Except.error (PyError.notImplementedError
    ("get_resources is not yet implemented for Flux adapter. " ++
      "Use MockAdapter with USE_MOCK_BACKENDS=true for testing.")), [])

/-- `FluxAdapter.get_accounting` (lines 548-577): raises immediately. -/
def fluxGetAccounting (job_id user start_time end_time : Option String)
    (limit : Int) (response_format : String) : Except PyError PyVal × List String :=
  (Except.error (PyError.notImplementedError
    ("get_accounting is not yet implemented for Flux adapter. " ++
      "Use MockAdapter with USE_MOCK_BACKENDS=true for testing.")), [])

/-- `FluxAdapter.submit_batch` (lines 579-612): raises immediately. -/
def fluxSubmitBatch (script : String) (array_spec : Option String)
    (commands : Option (List String)) (job_name_pfx : Option String)
    (nodes tasks_per_node : Option Int) (time_limit : Option String)
    (max_concurrent : Option Int) : Except PyError PyVal × List String :=
  (Except.error (PyError.notImplementedError
    ("submit_batch is not yet implemented for Flux adapter. " ++
      "Use MockAdapter with USE_MOCK_BACKENDS=true for testing.")), [])

/-- Substring containment, stated over the underlying character lists. -/
def containsSub (s sub : String) : Prop :=
  ∃ pre post : List Char, s.data = pre ++ sub.data ++ post

/-! ## Concrete fixtures for evaluations -/

/-- Submission parameters with every optional field absent. -/
def paramsScriptOnly : JobSubmitParams :=
  ⟨"#!/bin/bash\necho hello", Option.none, Option.none, Option.none, Option.none,
    Option.none, Option.none, Option.none, Option.none, Option.none, Option.none⟩

/-- A freshly constructed mock adapter state (Slurm style, empty store,
counter at its initial 1000). -/
def mockFresh : MockState := ⟨"slurm", Option.none, [], 1000⟩

/-- A cluster configured with the explicit `mock` backend type. -/
def cfgMockOnly : ClusterConfig :=
  ⟨some "mock", Option.none, Option.none, Option.none, Option.none⟩

/-- A registry holding one configured cluster and an empty adapter cache. -/
def regStOne : RegistryState := ⟨[("local-mock", cfgMockOnly)], [], 0⟩

/-- A registry whose configuration is empty (the state produced by a config
file with an empty `clusters` list) with an empty adapter cache. -/
def regStEmpty : RegistryState := ⟨[], [], 0⟩

/-- The adapter `get_adapter` constructs for `regStOne`. -/
def adapterLocal : AdapterInst := ⟨0, AdapterKind.mock, cfgMockOnly⟩

/-- `regStOne` after the first successful `get_adapter "local-mock"` call. -/
def regStOneCached : RegistryState :=
  ⟨[("local-mock", cfgMockOnly)], [("local-mock", adapterLocal)], 1⟩

/-- A raw Slurm job object whose `start_time` wrapper is present but unset
(`{set: False, number: 0}`) and whose other timestamps are absent. -/
def slurmJobDataUnstarted : SlurmJobData :=
  { job_id := some 42
    name := some "demo"
    job_state := some (Sum.inr "RUNNING")
    submit_time := Option.none
    start_time := some ⟨false, 0⟩
    end_time := Option.none
    exit_code_return := Option.none
    time_limit_number := Option.none
    node_count_number := Option.none
    tasks := Option.none
    cpus_per_task := Option.none
    memory_per_node := Option.none
    nodes := Option.none
    user_name := Option.none
    partition := Option.none
    current_working_directory := Option.none
    standard_output := Option.none
    standard_error := Option.none }

/-! ## Helper lemmas -/

/-- Looking up a key just assigned with `pySet` yields the new value. -/
theorem pyLookup_pySet_self {V : Type} (d : List (String × V)) (k : String) (v : V) :
    pyLookup (pySet d k v) k = some v := by
  induction d with
  | nil => simp [pySet, pyLookup]
  | cons hd tl ih =>
    obtain ⟨a, b⟩ := hd
    by_cases hak : a = k
    · simp [pySet, hak, pyLookup]
    · simp [pySet, hak, pyLookup, ih]

/-- `Nat.toDigitsCore` never shortens its accumulator. -/
theorem toDigitsCore_length_le (b : Nat) :
    ∀ (fuel n : Nat) (ds : List Char), ds.length ≤ (Nat.toDigitsCore b fuel n ds).length := by
  intro fuel
  induction fuel with
  | zero => intro n ds; simp [Nat.toDigitsCore]
  | succ f ih =>
    intro n ds
    simp only [Nat.toDigitsCore]
    split
    · simp
    · exact le_trans (by simp) (ih (n / b) ((n % b).digitChar :: ds))

/-- With at least one unit of fuel, `Nat.toDigitsCore` emits a digit. -/
theorem toDigitsCore_length_succ_le (b f n : Nat) (ds : List Char) :
    ds.length + 1 ≤ (Nat.toDigitsCore b (f + 1) n ds).length := by
  simp only [Nat.toDigitsCore]
  split
  · simp
  · have h := toDigitsCore_length_le b f (n / b) ((n % b).digitChar :: ds)
    simpa using h

/-- The decimal rendering of a natural number is never empty. -/
theorem nat_repr_ne_empty (n : Nat) : Nat.repr n ≠ "" := by
  intro h
  have hd : (Nat.toDigits 10 n) = [] := by
    have := congrArg String.data h
    simpa [Nat.repr, List.asString] using this
  have hlen := toDigitsCore_length_succ_le 10 n n []
  rw [Nat.toDigits] at hd
  rw [hd] at hlen
  simp at hlen

/-- Mock job ids are never the empty string (in both id styles). -/
theorem mockGenerateJobId_ne_empty (st : MockState) : (mockGenerateJobId st).1 ≠ "" := by
  unfold mockGenerateJobId
  split
  · intro h
    have := congrArg String.data h
    simp [String.data_append] at this
  · exact nat_repr_ne_empty _

/-- Every member of a joined list occurs inside the joined string. -/
theorem joinSep_infix_of_mem (sep n : String) :
    ∀ names : List String, n ∈ names →
      ∃ pre post : List Char, (joinSep sep names).data = pre ++ n.data ++ post := by
  intro names
  induction names with
  | nil => intro h; cases h
  | cons x rest ih =>
    intro h
    rcases List.mem_cons.mp h with heq | hmem
    · subst heq
      cases rest with
      | nil => exact ⟨[], [], by simp [joinSep]⟩
      | cons y t =>
        exact ⟨[], sep.data ++ (joinSep sep (y :: t)).data,
          by simp [joinSep, String.data_append]⟩
    · have hrest : rest ≠ [] := List.ne_nil_of_mem hmem
      obtain ⟨y, t, rfl⟩ := List.exists_cons_of_ne_nil hrest
      obtain ⟨pre, post, hp⟩ := ih hmem
      exact ⟨x.data ++ sep.data ++ pre, post,
        by simp [joinSep, String.data_append, hp]⟩

/-- The array-branch loop returns as many ids as it counts submissions. -/
theorem mockBatchLoop_length (mc : Option Int) :
    ∀ (items : List Int) (count : Nat) (st : MockState),
      (mockBatchLoop mc items count st).1.length = (mockBatchLoop mc items count st).2.1 := by
  intro items
  induction items with
  | nil => intro c st; simp [mockBatchLoop]
  | cons x rest ih =>
    intro c st
    simp only [mockBatchLoop]
    split
    · simp
    · simp [ih]

/-- Any message ending in the standard use-the-mock suffix names
`MockAdapter`. -/
theorem containsSub_mock_suffix (a : String) :
    containsSub (a ++ "Use MockAdapter with USE_MOCK_BACKENDS=true for testing.")
      "MockAdapter" := by
  refine ⟨a.data ++ ("Use ").data, (" with USE_MOCK_BACKENDS=true for testing.").data, ?_⟩
  have hx : ("Use MockAdapter with USE_MOCK_BACKENDS=true for testing." : String).data =
      ("Use " : String).data ++ ("MockAdapter" : String).data ++
        (" with USE_MOCK_BACKENDS=true for testing." : String).data := by decide
  simp [String.data_append, hx]

/-- The bulk-branch loop submits every command. -/
theorem mockBulkLoop_length :
    ∀ (cmds : List String) (st : MockState),
      (mockBulkLoop cmds st).1.length = cmds.length := by
  intro cmds
  induction cmds with
  | nil => intro st; simp [mockBulkLoop]
  | cons x rest ih => intro st; simp [mockBulkLoop, ih]

/-! ## Claim theorems -/

/-- Claim C5: for every `JobDetails` value, the detailed projection restricted
to the keys of the concise projection equals the concise projection — every
concise key/value pair appears unchanged in the detailed dict. -/
theorem concise_dict_subset_of_detailed_dict (j : JobDetails) :
    pyRestrict (toDetailedDict j) ((toConciseDict j).map Prod.fst) =
      toConciseDict j := by
  rfl

/-- Claim C1, counterexample: with every optional field absent, `submit_job`
does not forward only the script — both adapters still emit a working
directory defaulted to `/tmp` (`current_working_directory` in the Slurm
payload, the `--cwd` flag in the flux argv), so a key/flag for the absent
`working_dir` field reaches the backend. -/
theorem submit_forwards_cwd_for_absent_working_dir :
    pyLookup (slurmBuildJobSpec paramsScriptOnly) "current_working_directory" =
      some (PyVal.str "/tmp") ∧
    fluxBuildSubmitCmd paramsScriptOnly "/tmp/flux_script_1a2b3c4d.sh" =
      ["flux", "submit", "--cwd", "/tmp", "/tmp/flux_script_1a2b3c4d.sh"] :=
  ⟨rfl, rfl⟩

/-- Claim C1, amended: for a `JobSubmitParams` whose optional fields are all
absent, the Slurm payload is exactly the script plus the defaulted
`current_working_directory`, and the flux argv is exactly
`flux submit --cwd /tmp <script>` — no key or flag for any of the other nine
absent fields appears. -/
theorem submit_omits_absent_fields_except_cwd (script temp_script : String) :
    slurmBuildJobSpec
        ⟨script, Option.none, Option.none, Option.none, Option.none, Option.none,
          Option.none, Option.none, Option.none, Option.none, Option.none⟩ =
      [("script", PyVal.str script), ("current_working_directory", PyVal.str "/tmp")] ∧
    fluxBuildSubmitCmd
        ⟨script, Option.none, Option.none, Option.none, Option.none, Option.none,
          Option.none, Option.none, Option.none, Option.none, Option.none⟩ temp_script =
      ["flux", "submit", "--cwd", "/tmp", temp_script] :=
  ⟨rfl, rfl⟩

/-- Claim C2, counterexample: a Slurm job whose `start_time` wrapper is
present but unset yields a detailed `started` field equal to the empty
string, not `None` as the claim requires. -/
theorem slurm_started_empty_string_not_null :
    (slurmBuildJobDetails 1700000000 "42" slurmJobDataUnstarted).map JobDetails.started =
      Except.ok (some "") ∧ (some "" : Option String) ≠ Option.none := by
  exact ⟨rfl, by simp⟩

/-- Claim C2, amended: a zero-or-absent Slurm timestamp always normalizes to
the empty string (never epoch-zero's date); in the detailed projection the
Slurm `submitted` and `started` fields carry that (possibly empty) string —
`started` is an empty string rather than null when absent — while `ended` is
null whenever the end value is not positive. On the Flux side only the
placeholder `"-"` is treated as absent (empty `submitted`, null
`started`/`ended`); a literal `0` timestamp renders epoch zero's date. -/
theorem timestamp_zero_or_absent_normalization :
    (∀ td : Option SlurmTs,
      td = Option.none ∨ (∃ t, td = some t ∧ (t.set = false ∨ t.number = 0)) →
      slurmFormatTimestamp td = "") ∧
    (∀ (now : Int) (qid : String) (jd : SlurmJobData) (d : JobDetails),
      slurmBuildJobDetails now qid jd = Except.ok d →
      d.submitted = slurmFormatTimestamp jd.submit_time ∧
      d.started = some (slurmFormatTimestamp jd.start_time) ∧
      (slurmTsNum jd.end_time ≤ 0 → d.ended = Option.none)) ∧
    fluxSubmittedField "-" = Except.ok "" ∧
    fluxStartedField "-" = Except.ok Option.none ∧
    fluxEndedField "-" = Except.ok Option.none ∧
    fluxStartedField "0" = Except.ok (some (isoFromEpoch 0)) ∧
    isoFromEpoch 0 = "1970-01-01T00:00:00+00:00" ∧
    ("" : String) ≠ isoFromEpoch 0 := by
  refine ⟨?_, ?_, rfl, rfl, rfl, rfl, by decide, by decide⟩
  · intro td h
    rcases h with rfl | ⟨t, rfl, ht⟩
    · rfl
    · rcases ht with hset | hnum
      · simp [slurmFormatTimestamp, hset]
      · simp [slurmFormatTimestamp, hnum]
  · intro now qid jd d h
    rcases hjs : jd.job_state with _ | js
    · rw [slurmBuildJobDetails, hjs] at h
      simp only [Except.bind] at h
      cases h
      refine ⟨rfl, rfl, fun hle => ?_⟩
      simp only [if_neg (by omega : ¬ slurmTsNum jd.end_time > 0)]
    · rcases js with l | s
      · rcases l with _ | ⟨s0, rest⟩
        · rw [slurmBuildJobDetails, hjs] at h
          simp only [Except.bind] at h
          cases h
        · rw [slurmBuildJobDetails, hjs] at h
          simp only [Except.bind] at h
          cases h
          refine ⟨rfl, rfl, fun hle => ?_⟩
          simp only [if_neg (by omega : ¬ slurmTsNum jd.end_time > 0)]
      · rw [slurmBuildJobDetails, hjs] at h
        simp only [Except.bind] at h
        cases h
        refine ⟨rfl, rfl, fun hle => ?_⟩
        simp only [if_neg (by omega : ¬ slurmTsNum jd.end_time > 0)]

/-- Witness for the amended C2 theorem at a concrete unset wrapper. -/
theorem timestamp_zero_or_absent_normalization_witness :
    slurmFormatTimestamp (some ⟨false, 5⟩) = "" :=
  timestamp_zero_or_absent_normalization.1 (some ⟨false, 5⟩)
    (Or.inr ⟨⟨false, 5⟩, rfl, Or.inl rfl⟩)

/-- Claim C3, counterexample: the duration parser is not total — on the
input `"."` the leading `[\d.]+` run matches but `float(".")` raises
`ValueError`, so the parser raises instead of returning `"00:00:00"`. -/
theorem flux_duration_parser_raises_on_dot :
    parseFluxDuration "." =
      Except.error ("ValueError: could not convert string to float: " ++
        sq ++ "." ++ sq) :=
  rfl

/-- Claim C3, amended: `"1h"`, `"90m"`, `""` and `"-"` parse as the spec
states, and the parser returns a value on every input whose leading
digit-and-dot run is empty or forms a valid float; but on inputs whose
non-empty run is rejected by `float()` (no digit, or more than one dot, as
in `"."` or `"1.2.3h"`) it raises `ValueError` instead of returning
`"00:00:00"`. -/
theorem flux_duration_parser_behavior :
    parseFluxDuration "1h" = Except.ok "01:00:00" ∧
    parseFluxDuration "90m" = Except.ok "01:30:00" ∧
    parseFluxDuration "" = Except.ok "00:00:00" ∧
    parseFluxDuration "-" = Except.ok "00:00:00" ∧
    (∀ s : String, s ≠ "" → s ≠ "-" →
      s.data.takeWhile (fun c => c.isDigit || c == '.') ≠ [] →
      parsePyFloatCore (s.data.takeWhile (fun c => c.isDigit || c == '.')) = Option.none →
      parseFluxDuration s = Except.error
        ("ValueError: could not convert string to float: " ++ sq ++
          (⟨s.data.takeWhile (fun c => c.isDigit || c == '.')⟩ : String) ++ sq)) ∧
    (∀ s : String,
      (s.data.takeWhile (fun c => c.isDigit || c == '.') = [] ∨
        (parsePyFloatCore (s.data.takeWhile (fun c => c.isDigit || c == '.'))).isSome = true) →
      ∃ out, parseFluxDuration s = Except.ok out) := by
  refine ⟨rfl, rfl, rfl, rfl, ?_, ?_⟩
  · intro s hne hnd hrun hfloat
    rw [parseFluxDuration]
    rw [if_neg (by push_neg; exact ⟨hne, hnd⟩)]
    simp only [if_neg hrun, hfloat]
  · intro s h
    by_cases hne : s = "" ∨ s = "-"
    · exact ⟨"00:00:00", by rw [parseFluxDuration, if_pos hne]⟩
    · rcases h with hrun | hsome
      · exact ⟨"00:00:00", by rw [parseFluxDuration, if_neg hne, if_pos hrun]⟩
      · obtain ⟨v, hv⟩ := Option.isSome_iff_exists.mp hsome
        rw [parseFluxDuration, if_neg hne,
          if_neg (by intro hc; rw [hc] at hv; simp [parsePyFloatCore] at hv), hv]
        exact ⟨_, rfl⟩

/-- Witness for the amended C3 theorem: a valid duration parses to a value. -/
theorem flux_duration_parser_behavior_witness :
    ∃ out, parseFluxDuration "5s" = Except.ok out :=
  flux_duration_parser_behavior.2.2.2.2.2 "5s" (Or.inr (by decide))

/-- Claim C4, counterexample: an array spec without a hyphen (`"5"`, a valid
single-index Slurm array spec, hence one attempted item) is silently
dropped — the mock returns `submitted = 0`, `failed = 0` and an empty error
list, so `submitted + failed` is 0, not the 1 attempted item, and the item
appears in neither count nor the error list. -/
theorem mock_submit_batch_drops_hyphenless_spec :
    mockSubmitBatch (some "5") Option.none Option.none mockFresh =
      (BatchResult.counts false [] "array" 0 0 [], mockFresh) :=
  rfl

/-- Claim C4, amended: whenever `submit_batch` returns a counts dict, the
error list has exactly `failed` entries and `job_ids` has exactly
`submitted` entries; for bulk command submissions `submitted + failed`
equals the number of commands. (For array specs the accounting holds only
for hyphenated specs — a hyphenless spec is dropped with all counts zero —
and `max_concurrent` truncates submissions below the nominal range size.) -/
theorem mock_submit_batch_counts (array_spec : Option String)
    (commands : Option (List String)) (max_concurrent : Option Int) (st : MockState)
    (success : Bool) (job_ids : List String) (batch_type : String)
    (submitted failed : Nat) (errs : List BatchErr) (st1 : MockState)
    (h : mockSubmitBatch array_spec commands max_concurrent st =
      (BatchResult.counts success job_ids batch_type submitted failed errs, st1)) :
    errs.length = failed ∧ job_ids.length = submitted ∧
      (strTruthy array_spec = false → submitted + failed = (commands.getD []).length) := by
  rw [mockSubmitBatch] at h
  by_cases ha : strTruthy array_spec = true
  · rw [if_pos ha] at h
    by_cases hh : (array_spec.getD "").data.contains '-' = true
    · rw [if_pos hh] at h
      rcases hp : mockParseArrayItems (array_spec.getD "") with e | items
      · rw [hp] at h
        cases h
        exact ⟨rfl, rfl, fun hf => absurd ha (by simp [hf])⟩
      · rw [hp] at h
        cases h
        exact ⟨rfl, mockBatchLoop_length max_concurrent items 0 st,
          fun hf => absurd ha (by simp [hf])⟩
    · rw [if_neg hh] at h
      cases h
      exact ⟨rfl, rfl, fun hf => absurd ha (by simp [hf])⟩
  · rw [if_neg ha] at h
    by_cases hc : listTruthy commands = true
    · rw [if_pos hc] at h
      cases h
      refine ⟨rfl, rfl, fun _ => ?_⟩
      simp [mockBulkLoop_length (commands.getD []) st]
    · rw [if_neg hc] at h
      cases h

/-- Witness for the amended C4 theorem at a concrete bulk submission of two
commands. -/
theorem mock_submit_batch_counts_witness :
    ([] : List BatchErr).length = 0 ∧ (["1000", "1001"] : List String).length = 2 ∧
      (strTruthy Option.none = false →
        2 + 0 = ((some ["echo a", "echo b"]).getD ([] : List String)).length) :=
  mock_submit_batch_counts Option.none (some ["echo a", "echo b"]) Option.none mockFresh
    true ["1000", "1001"] "bulk" 2 0 [] ⟨"slurm", Option.none, [], 1002⟩ rfl

/-- Claim C6: a second `get_adapter` call with the same cluster name returns
the identical cached adapter instance and leaves the registry unchanged —
no new adapter is constructed. -/
theorem get_adapter_cached_idempotent (use_mock : Bool) (cluster_name : String)
    (st : RegistryState) (a : AdapterInst) (st1 : RegistryState)
    (h : getAdapter use_mock cluster_name st = (Except.ok a, st1)) :
    getAdapter use_mock cluster_name st1 = (Except.ok a, st1) := by
  rw [getAdapter] at h
  split at h
  next a0 heq =>
    injection h with h1 h2
    injection h1 with h1
    subst h1
    subst h2
    rw [getAdapter, heq]
  next heq =>
    split at h
    next heq2 =>
      injection h with h1 h2
      exact Except.noConfusion h1
    next config heq2 =>
      dsimp only at h
      split at h
      · injection h with h1 h2
        injection h1 with h1
        subst h1
        subst h2
        rw [getAdapter, pyLookup_pySet_self]
      · split at h
        · split at h
          next hep =>
            injection h with h1 h2
            exact Except.noConfusion h1
          next ep hep =>
            injection h with h1 h2
            injection h1 with h1
            subst h1
            subst h2
            rw [getAdapter, pyLookup_pySet_self]
        · split at h
          · split at h
            · injection h with h1 h2
              exact Except.noConfusion h1
            · split at h
              · injection h with h1 h2
                exact Except.noConfusion h1
              · injection h with h1 h2
                injection h1 with h1
                subst h1
                subst h2
                rw [getAdapter, pyLookup_pySet_self]
          · split at h
            · injection h with h1 h2
              injection h1 with h1
              subst h1
              subst h2
              rw [getAdapter, pyLookup_pySet_self]
            · injection h with h1 h2
              exact Except.noConfusion h1

/-- Witness for C6: the call after a concrete first construction returns the
same instance with the registry untouched. -/
theorem get_adapter_cached_idempotent_witness :
    getAdapter false "local-mock" regStOneCached = (Except.ok adapterLocal, regStOneCached) :=
  get_adapter_cached_idempotent false "local-mock" regStOne adapterLocal regStOneCached rfl

/-- Claim C7, counterexample: with an empty configuration (the state a
config file with an empty `clusters` list produces), the not-found error
message ends with an empty list — there is no known cluster name at all, so
the message cannot list one, contrary to the claim's "at least one". -/
theorem get_adapter_unknown_cluster_empty_config :
    getAdapter false "ghost" regStEmpty =
      (Except.error ("Cluster " ++ sq ++ "ghost" ++ sq ++
        " not found. Available clusters: "), regStEmpty) ∧
    regStEmpty.configs.map Prod.fst = [] :=
  ⟨rfl, rfl⟩

/-- Claim C7, amended: an unknown (uncached and unconfigured) cluster name
makes `get_adapter` fail with the not-found error whose message contains
every configured cluster name (hence at least one whenever the configuration
is nonempty), and the registry — adapter cache included — is left
unchanged. -/
theorem get_adapter_unknown_cluster (use_mock : Bool) (cluster_name : String)
    (st : RegistryState)
    (hcache : pyLookup st.adapters cluster_name = Option.none)
    (hcfg : pyLookup st.configs cluster_name = Option.none) :
    getAdapter use_mock cluster_name st =
      (Except.error ("Cluster " ++ sq ++ cluster_name ++ sq ++
        " not found. Available clusters: " ++ joinSep ", " (st.configs.map Prod.fst)), st) ∧
    ∀ n ∈ st.configs.map Prod.fst,
      containsSub ("Cluster " ++ sq ++ cluster_name ++ sq ++
        " not found. Available clusters: " ++ joinSep ", " (st.configs.map Prod.fst)) n := by
  constructor
  · rw [getAdapter, hcache, hcfg]
  · intro n hn
    obtain ⟨pre, post, hp⟩ := joinSep_infix_of_mem ", " n (st.configs.map Prod.fst) hn
    exact ⟨("Cluster " ++ sq ++ cluster_name ++ sq ++
      " not found. Available clusters: ").data ++ pre, post,
      by simp [String.data_append, hp]⟩

/-- Witness for the amended C7 theorem on a registry with one configured
cluster and an unknown queried name. -/
theorem get_adapter_unknown_cluster_witness :
    getAdapter false "ghost" regStOne =
      (Except.error ("Cluster " ++ sq ++ "ghost" ++ sq ++
        " not found. Available clusters: " ++
        joinSep ", " (regStOne.configs.map Prod.fst)), regStOne) :=
  (get_adapter_unknown_cluster false "ghost" regStOne rfl rfl).1

/-- Claim C8: for each adapter, every `submit_job` result populates exactly
one of `job_id`/`error`: success carries a non-empty id, state `PENDING` and
no error; failure carries an error and no id. -/
theorem submit_result_populates_exactly_one :
    (∀ outcome : Except PyExc SlurmSubmitResponse,
      ((slurmSubmitJob outcome).success = true →
        ∃ j, (slurmSubmitJob outcome).job_id = some j ∧ j ≠ "" ∧
          (slurmSubmitJob outcome).state = some "PENDING" ∧
          (slurmSubmitJob outcome).error = Option.none) ∧
      ((slurmSubmitJob outcome).success = false →
        (slurmSubmitJob outcome).job_id = Option.none ∧
        (slurmSubmitJob outcome).error ≠ Option.none)) ∧
    (∀ (w : Except PyExc Unit) (s : Except PyExc String),
      ((fluxSubmitJob w s).success = true →
        ∃ j, (fluxSubmitJob w s).job_id = some j ∧ j ≠ "" ∧
          (fluxSubmitJob w s).state = some "PENDING" ∧
          (fluxSubmitJob w s).error = Option.none) ∧
      ((fluxSubmitJob w s).success = false →
        (fluxSubmitJob w s).job_id = Option.none ∧
        (fluxSubmitJob w s).error ≠ Option.none)) ∧
    (∀ (now : String) (st : MockState) (params : JobSubmitParams),
      ((mockSubmitJob now st params).1.success = true →
        ∃ j, (mockSubmitJob now st params).1.job_id = some j ∧ j ≠ "" ∧
          (mockSubmitJob now st params).1.state = some "PENDING" ∧
          (mockSubmitJob now st params).1.error = Option.none) ∧
      ((mockSubmitJob now st params).1.success = false →
        (mockSubmitJob now st params).1.job_id = Option.none ∧
        (mockSubmitJob now st params).1.error ≠ Option.none)) := by
  refine ⟨?_, ?_, ?_⟩
  · intro outcome
    rcases outcome with e | resp
    · exact ⟨(fun h => nomatch h), fun _ => ⟨rfl, by simp [slurmSubmitJob]⟩⟩
    · rw [slurmSubmitJob]
      by_cases herr : resp.errors ≠ []
      · rw [if_pos herr]
        exact ⟨(fun h => nomatch h), fun _ => ⟨rfl, by simp⟩⟩
      · rw [if_neg herr]
        by_cases hid : (match resp.job_id with
            | some n => toString n
            | Option.none => "") = ""
        · rw [if_pos hid]
          exact ⟨(fun h => nomatch h), fun _ => ⟨rfl, by simp⟩⟩
        · rw [if_neg hid]
          exact ⟨fun _ => ⟨_, rfl, hid, rfl, rfl⟩, fun h => nomatch h⟩
  · intro w s
    rcases w with e | u
    · exact ⟨(fun h => nomatch h), fun _ => ⟨rfl, by simp [fluxSubmitJob]⟩⟩
    · rcases s with e | output
      · exact ⟨(fun h => nomatch h), fun _ => ⟨rfl, by simp [fluxSubmitJob]⟩⟩
      · rw [fluxSubmitJob]
        by_cases hid : pyStrip output = ""
        · rw [if_pos hid]
          exact ⟨(fun h => nomatch h), fun _ => ⟨rfl, by simp⟩⟩
        · rw [if_neg hid]
          exact ⟨fun _ => ⟨_, rfl, hid, rfl, rfl⟩, fun h => nomatch h⟩
  · intro now st params
    exact ⟨fun _ => ⟨_, rfl, mockGenerateJobId_ne_empty st, rfl, rfl⟩,
      fun h => nomatch h⟩

/-- Witness for C8 at a concrete successful Slurm submission response. -/
theorem submit_result_populates_exactly_one_witness :
    ∃ j, (slurmSubmitJob (Except.ok ⟨[], some 4242⟩)).job_id = some j ∧ j ≠ "" ∧
      (slurmSubmitJob (Except.ok ⟨[], some 4242⟩)).state = some "PENDING" ∧
      (slurmSubmitJob (Except.ok ⟨[], some 4242⟩)).error = Option.none :=
  (submit_result_populates_exactly_one.1 (Except.ok ⟨[], some 4242⟩)).1 rfl

/-- Claim C9: on the Slurm adapter (and likewise on the Flux adapter) the
four operations `get_queue_status`, `get_resources`, `get_accounting` and
`submit_batch` raise `NotImplementedError` for every input, with a message
naming the mock alternative, and issue no REST/exec call (the trace
component is empty). -/
theorem unimplemented_ops_raise_with_mock_alternative :
    (∀ fmt, ∃ msg, slurmGetQueueStatus fmt =
      (Except.error (PyError.notImplementedError msg), []) ∧ containsSub msg "MockAdapter") ∧
    (∀ fmt, ∃ msg, slurmGetResources fmt =
      (Except.error (PyError.notImplementedError msg), []) ∧ containsSub msg "MockAdapter") ∧
    (∀ jid user ts te lim fmt, ∃ msg, slurmGetAccounting jid user ts te lim fmt =
      (Except.error (PyError.notImplementedError msg), []) ∧ containsSub msg "MockAdapter") ∧
    (∀ script aspec cmds pfx nodes tpn tl mc, ∃ msg,
      slurmSubmitBatch script aspec cmds pfx nodes tpn tl mc =
      (Except.error (PyError.notImplementedError msg), []) ∧ containsSub msg "MockAdapter") ∧
    (∀ fmt, ∃ msg, fluxGetQueueStatus fmt =
      (Except.error (PyError.notImplementedError msg), []) ∧ containsSub msg "MockAdapter") ∧
    (∀ fmt, ∃ msg, fluxGetResources fmt =
      (Except.error (PyError.notImplementedError msg), []) ∧ containsSub msg "MockAdapter") ∧
    (∀ jid user ts te lim fmt, ∃ msg, fluxGetAccounting jid user ts te lim fmt =
      (Except.error (PyError.notImplementedError msg), []) ∧ containsSub msg "MockAdapter") ∧
    (∀ script aspec cmds pfx nodes tpn tl mc, ∃ msg,
      fluxSubmitBatch script aspec cmds pfx nodes tpn tl mc =
      (Except.error (PyError.notImplementedError msg), []) ∧ containsSub msg "MockAdapter") := by
  refine ⟨fun _ => ⟨_, rfl, ?_⟩, fun _ => ⟨_, rfl, ?_⟩,
    fun _ _ _ _ _ _ => ⟨_, rfl, ?_⟩, fun _ _ _ _ _ _ _ _ => ⟨_, rfl, ?_⟩,
    fun _ => ⟨_, rfl, ?_⟩, fun _ => ⟨_, rfl, ?_⟩,
    fun _ _ _ _ _ _ => ⟨_, rfl, ?_⟩, fun _ _ _ _ _ _ _ _ => ⟨_, rfl, ?_⟩⟩ <;>
    exact containsSub_mock_suffix _

/-- Claim C10: on the mock adapter `get_job` never fails — for every id,
known or not, it returns details whose `job_id` is the queried id (totality
is the type itself: the embedded function returns `JobDetails`, no error);
the id is present in the store afterwards, and a previously unknown id is
auto-created in state `RUNNING`. The hypothesis is the store invariant
(every stored job's `job_id` equals its key) maintained by all mock
operations. -/
theorem mock_get_job_total_and_autocreate (now : String) (st : MockState) (job_id : String)
    (hwf : ∀ k v, pyLookup st.jobs k = some v → v.job_id = k) :
    (mockGetJob now st job_id).1.job_id = job_id ∧
    pyLookup (mockGetJob now st job_id).2.jobs job_id = some (mockGetJob now st job_id).1 ∧
    (pyLookup st.jobs job_id = Option.none →
      (mockGetJob now st job_id).1.state = "RUNNING") := by
  rcases hl : pyLookup st.jobs job_id with _ | j
  · rw [mockGetJob, hl]
    exact ⟨rfl, pyLookup_pySet_self _ _ _, fun _ => rfl⟩
  · rw [mockGetJob, hl]
    exact ⟨hwf job_id j hl, hl, fun hcontra => nomatch hcontra⟩

/-- Witness for C10 on a fresh mock adapter and a never-submitted id. -/
theorem mock_get_job_total_and_autocreate_witness :
    (mockGetJob "2024-06-01T12:00:00+00:00" mockFresh "424242").1.job_id = "424242" ∧
    pyLookup (mockGetJob "2024-06-01T12:00:00+00:00" mockFresh "424242").2.jobs "424242" =
      some (mockGetJob "2024-06-01T12:00:00+00:00" mockFresh "424242").1 ∧
    (pyLookup mockFresh.jobs "424242" = Option.none →
      (mockGetJob "2024-06-01T12:00:00+00:00" mockFresh "424242").1.state = "RUNNING") :=
  mock_get_job_total_and_autocreate "2024-06-01T12:00:00+00:00" mockFresh "424242"
    (fun k v h => nomatch h)

end HpcSched
